import Mathlib

/-!
Verification of the Paymodel Python SDK (src/sdk/python/paymodel.py)
against its natural-language specification.

The code is shallowly embedded: Python strings are Lean `String` / `List Char`,
parsed JSON values (the results of `json.loads`) are the inductive `Json`,
fallible Python code returns `Except`, and the streaming generator is a pure
function from the list of raw reads to the list of produced chunks together
with an optional escaping exception.
-/

namespace PaymodelSDK

/-- A parsed JSON value, the shallow embedding of the result of Python's
`json.loads`.  Objects are association lists in source order; `dictGet` below
implements Python `dict.get` (duplicate keys: last occurrence wins, as in
`json.loads`).  JSON number literals are restricted to integers: the payloads
and bodies handled by this SDK's claims contain only integer numerals, and
`json.loads` agrees with this model on them. -/
inductive Json where
  | null : Json
  | bool (b : Bool) : Json
  | num (n : Int) : Json
  | str (s : String) : Json
  | arr (elems : List Json) : Json
  | obj (fields : List (String × Json)) : Json

/-- Last-occurrence lookup in a JSON object's field list: this is the value a
Python dict built by `json.loads` associates to the key (later duplicates
overwrite earlier ones). -/
def lookupLast : List (String × Json) → String → Option Json
  | [], _ => none
  | (k', v) :: rest, k =>
    match lookupLast rest k with
    | some v' => some v'
    | none => if k' = k then some v else none

/-- Python `d.get(k, default)` on a dict obtained from `json.loads`. -/
def dictGet (kvs : List (String × Json)) (k : String) (d : Json) : Json :=
  (lookupLast kvs k).getD d

/-- JSON whitespace accepted between tokens by Python's `json.loads`. -/
def isJsonWs (c : Char) : Bool :=
  c = ' ' || c = '\t' || c = '\n' || c = '\r'

def skipWs (cs : List Char) : List Char :=
  cs.dropWhile isJsonWs

def isDigitCh (c : Char) : Bool :=
  '0' ≤ c && c ≤ '9'

def isHexDigitCh (c : Char) : Bool :=
  isDigitCh c || ('a' ≤ c && c ≤ 'f') || ('A' ≤ c && c ≤ 'F')

def hexVal (c : Char) : Nat :=
  if isDigitCh c then c.toNat - '0'.toNat
  else if 'a' ≤ c && c ≤ 'f' then c.toNat - 'a'.toNat + 10
  else c.toNat - 'A'.toNat + 10

/-- Body of a JSON string literal (after the opening quote): returns the decoded
characters and the input remaining after the closing quote.  Handles the JSON
escapes; raw control characters are rejected as in strict `json.loads`. -/
def parseStringChars : List Char → Option (List Char × List Char)
  | [] => none
  | '"' :: rest => some ([], rest)
  | '\\' :: rest =>
    match rest with
    | '"' :: r => (parseStringChars r).map (fun p => ('"' :: p.1, p.2))
    | '\\' :: r => (parseStringChars r).map (fun p => ('\\' :: p.1, p.2))
    | '/' :: r => (parseStringChars r).map (fun p => ('/' :: p.1, p.2))
    | 'b' :: r => (parseStringChars r).map (fun p => ('\x08' :: p.1, p.2))
    | 'f' :: r => (parseStringChars r).map (fun p => ('\x0c' :: p.1, p.2))
    | 'n' :: r => (parseStringChars r).map (fun p => ('\n' :: p.1, p.2))
    | 'r' :: r => (parseStringChars r).map (fun p => ('\r' :: p.1, p.2))
    | 't' :: r => (parseStringChars r).map (fun p => ('\t' :: p.1, p.2))
    | 'u' :: a :: b :: c :: d :: r =>
      if isHexDigitCh a && isHexDigitCh b && isHexDigitCh c && isHexDigitCh d then
        (parseStringChars r).map
          (fun p => (Char.ofNat (((hexVal a * 16 + hexVal b) * 16 + hexVal c) * 16 + hexVal d) :: p.1, p.2))
      else none
    | _ => none
  | c :: rest =>
    if c.toNat < 32 then none
    else (parseStringChars rest).map (fun p => (c :: p.1, p.2))

def digitsToNat (ds : List Char) : Nat :=
  ds.foldl (fun n c => n * 10 + (c.toNat - 48)) 0

/-- A JSON integer numeral.  Fractions and exponents are outside this model
(see the `Json` doc comment); leading zeros and a bare minus are rejected as
in `json.loads`. -/
def parseNumber (cs : List Char) : Option (Json × List Char) :=
  let neg : Bool := match cs with | '-' :: _ => true | _ => false
  let cs1 := match cs with | '-' :: r => r | _ => cs
  let ds := cs1.takeWhile isDigitCh
  let rest := cs1.dropWhile isDigitCh
  if ds = [] then none
  else if ds.length > 1 && ds.headD '0' = '0' then none
  else
    match rest with
    | '.' :: _ => none
    | 'e' :: _ => none
    | 'E' :: _ => none
    | _ => some (Json.num (if neg then -(digitsToNat ds : Int) else (digitsToNat ds : Int)), rest)

mutual

/-- One JSON value, fuelled recursive-descent; every recursive call first
consumes at least one character, so fuel `length + 1` always suffices. -/
def parseValue : Nat → List Char → Option (Json × List Char)
  | 0, _ => none
  | Nat.succ fuel, cs =>
    match skipWs cs with
    | [] => none
    | '"' :: r => (parseStringChars r).map (fun p => (Json.str (String.mk p.1), p.2))
    | '\x7b' :: r =>
      (match skipWs r with
       | '\x7d' :: r2 => some (Json.obj [], r2)
       | r2 => parseMembers fuel r2)
    | '[' :: r =>
      (match skipWs r with
       | ']' :: r2 => some (Json.arr [], r2)
       | r2 => parseElements fuel r2)
    | 't' :: 'r' :: 'u' :: 'e' :: r => some (Json.bool true, r)
    | 'f' :: 'a' :: 'l' :: 's' :: 'e' :: r => some (Json.bool false, r)
    | 'n' :: 'u' :: 'l' :: 'l' :: r => some (Json.null, r)
    | other => parseNumber other

/-- Object members, positioned at a key (the empty object is handled by the
caller). -/
def parseMembers : Nat → List Char → Option (Json × List Char)
  | 0, _ => none
  | Nat.succ fuel, cs =>
    match skipWs cs with
    | '"' :: r =>
      (match parseStringChars r with
       | none => none
       | some (key, r2) =>
         match skipWs r2 with
         | ':' :: r3 =>
           (match parseValue fuel r3 with
            | none => none
            | some (v, r4) =>
              match skipWs r4 with
              | ',' :: r5 =>
                (match parseMembers fuel r5 with
                 | some (Json.obj kvs, r6) => some (Json.obj ((String.mk key, v) :: kvs), r6)
                 | _ => none)
              | '\x7d' :: r5 => some (Json.obj [(String.mk key, v)], r5)
              | _ => none)
         | _ => none)
    | _ => none

/-- Array elements, positioned at a value (the empty array is handled by the
caller). -/
def parseElements : Nat → List Char → Option (Json × List Char)
  | 0, _ => none
  | Nat.succ fuel, cs =>
    match parseValue fuel cs with
    | none => none
    | some (v, r) =>
      match skipWs r with
      | ',' :: r2 =>
        (match parseElements fuel r2 with
         | some (Json.arr vs, r3) => some (Json.arr (v :: vs), r3)
         | _ => none)
      | ']' :: r2 => some (Json.arr [v], r2)
      | _ => none

end

/-- Model of Python `json.loads` on a text: `some` on a well-formed JSON
document (possibly surrounded by whitespace), `none` where `json.loads`
raises `json.JSONDecodeError`. -/
def jsonParse (cs : List Char) : Option Json :=
  match parseValue (cs.length + 1) cs with
  | some (v, rest) => if skipWs rest = [] then some v else none
  | none => none

/-- Python exceptions that can escape the response-shaping code (they are not
caught anywhere in the SDK). -/
inductive PyExc where
  | attributeError : PyExc
  | typeError : PyExc

/-- Python `value.get(key, default)`: succeeds on a dict, raises
`AttributeError` on every other `json.loads` result. -/
def pyGet (j : Json) (k : String) (d : Json) : Except PyExc Json :=
  match j with
  | .obj kvs => .ok (dictGet kvs k d)
  | _ => .error .attributeError

/-- Python iteration (`for i, c in enumerate(x)`) over a `json.loads` value:
lists yield their elements, strings their one-character substrings, dicts
their keys; the remaining values raise `TypeError`. -/
def pyIterate (j : Json) : Except PyExc (List Json) :=
  match j with
  | .arr xs => .ok xs
  | .str s => .ok (s.data.map (fun c => Json.str (String.mk [c])))
  | .obj kvs => .ok (kvs.map (fun kv => Json.str kv.1))
  | _ => .error .typeError

/-- A Python list comprehension `[f(i, c) for i, c in enumerate(cs)]` starting
at index `k`: the first exception raised by `f` aborts the whole list. -/
def mapIdxExcept {α : Type} (f : Nat → Json → Except PyExc α) : Nat → List Json → Except PyExc (List α)
  | _, [] => .ok []
  | i, c :: cs => do
    let x ← f i c
    let xs ← mapIdxExcept f (i + 1) cs
    .ok (x :: xs)

/-- `Message` objects of paymodel.py (shaped, fields hold `json.loads`
values). -/
structure Message where
  role : Json
  content : Json

/-- `Choice` objects of paymodel.py. -/
structure Choice where
  index : Json
  message : Message
  finish_reason : Json

/-- `Usage` objects of paymodel.py. -/
structure Usage where
  prompt_tokens : Json
  completion_tokens : Json
  total_tokens : Json

/-- `ChatCompletion` objects of paymodel.py; `raw` models the stored
`self._data`, and `cost` / `balance` start as Python `None` and are later
set from the `X-Cost` / `X-Balance` response headers by the caller. -/
structure ChatCompletion where
  raw : Json
  id : Json
  object : Json
  model : Json
  choices : List Choice
  usage : Usage
  cost : Option String
  balance : Option String

/-- `DeltaMessage` objects of paymodel.py. -/
structure DeltaMessage where
  role : Json
  content : Json

/-- `StreamChoice` objects of paymodel.py. -/
structure StreamChoice where
  index : Json
  delta : DeltaMessage
  finish_reason : Json

/-- `ChatCompletionChunk` objects of paymodel.py (the `object` field is the
constant string `"chat.completion.chunk"`). -/
structure ChatCompletionChunk where
  id : Json
  object : String
  model : Json
  choices : List StreamChoice

/-- One element of the `choices` comprehension in `ChatCompletion.__init__`:
`Choice(index=c.get("index", i), message=Message(role=..., content=...),
finish_reason=c.get("finish_reason"))`. -/
def mkChoice (i : Nat) (c : Json) : Except PyExc Choice := do
  let idx ← pyGet c "index" (Json.num (Int.ofNat i))
  let msgJ ← pyGet c "message" (Json.obj [])
  let role ← pyGet msgJ "role" (Json.str "assistant")
  let content ← pyGet msgJ "content" (Json.str "")
  let fr ← pyGet c "finish_reason" Json.null
  pure { index := idx, message := { role := role, content := content }, finish_reason := fr }

/-- `ChatCompletion.__init__(self, data)` of paymodel.py. -/
def ChatCompletion.ofJson (d : Json) : Except PyExc ChatCompletion := do
  let id ← pyGet d "id" (Json.str "")
  let object ← pyGet d "object" (Json.str "chat.completion")
  let model ← pyGet d "model" (Json.str "")
  let choicesJ ← pyGet d "choices" (Json.arr [])
  let elems ← pyIterate choicesJ
  let choices ← mapIdxExcept mkChoice 0 elems
  let usageJ ← pyGet d "usage" (Json.obj [])
  let pt ← pyGet usageJ "prompt_tokens" (Json.num 0)
  let ct ← pyGet usageJ "completion_tokens" (Json.num 0)
  let tt ← pyGet usageJ "total_tokens" (Json.num 0)
  pure { raw := d, id := id, object := object, model := model, choices := choices,
         usage := { prompt_tokens := pt, completion_tokens := ct, total_tokens := tt },
         cost := none, balance := none }

/-- One element of the `choices` comprehension in
`ChatCompletionChunk.__init__`. -/
def mkStreamChoice (i : Nat) (c : Json) : Except PyExc StreamChoice := do
  let idx ← pyGet c "index" (Json.num (Int.ofNat i))
  let deltaJ ← pyGet c "delta" (Json.obj [])
  let role ← pyGet deltaJ "role" Json.null
  let content ← pyGet deltaJ "content" Json.null
  let fr ← pyGet c "finish_reason" Json.null
  pure { index := idx, delta := { role := role, content := content }, finish_reason := fr }

/-- `ChatCompletionChunk.__init__(self, data)` of paymodel.py. -/
def ChatCompletionChunk.ofJson (d : Json) : Except PyExc ChatCompletionChunk := do
  let id ← pyGet d "id" (Json.str "")
  let model ← pyGet d "model" (Json.str "")
  let choicesJ ← pyGet d "choices" (Json.arr [])
  let elems ← pyIterate choicesJ
  let choices ← mapIdxExcept mkStreamChoice 0 elems
  pure { id := id, object := "chat.completion.chunk", model := model, choices := choices }

/-- What the `except urllib.error.HTTPError` handler shared by `Paymodel._get`
and `Paymodel._post` raises. -/
inductive HttpFailure where
  /-- `raise PaymodelError(body.get("code", "UNKNOWN"), body.get("error", str(e)), body)`. -/
  | paymodelError (code message : Json) (data : Json) : HttpFailure
  /-- `json.loads(e.read())` itself raised `json.JSONDecodeError`, which
  propagates uncaught. -/
  | jsonDecodeError : HttpFailure
  /-- `body.get` raised `AttributeError` because the parsed body is not a
  dict. -/
  | attributeError : HttpFailure

/-- The non-2xx branch of `Paymodel._get` / `Paymodel._post`:
`body = json.loads(e.read())` followed by
`raise PaymodelError(body.get("code", "UNKNOWN"), body.get("error", str(e)), body)`.
`bodyText` is the HTTP error body, `fallback` is Python's `str(e)`. -/
def raiseForError (bodyText : String) (fallback : String) : HttpFailure :=
  match jsonParse bodyText.data with
  | none => .jsonDecodeError
  | some body =>
    match body with
    | .obj kvs =>
      .paymodelError (dictGet kvs "code" (Json.str "UNKNOWN"))
        (dictGet kvs "error" (Json.str fallback)) (.obj kvs)
    | _ => .attributeError

/-- `DEFAULT_BASE_URL` of paymodel.py. -/
def DEFAULT_BASE_URL : String := "https://paymodel.bflynn4141.workers.dev"

/-- The state a constructed `Paymodel` client holds (`self._payer`,
`self._base_url`). -/
structure PaymodelClient where
  payer : String
  base_url : String

/-- Python `s.startswith(p)`. -/
def pyStartsWith (s p : String) : Bool :=
  s.data.take p.data.length == p.data

/-- Python `c.lower()` on one character, restricted to ASCII (every string the
claims quantify over is ASCII, where `str.lower` is exactly this map). -/
def pyCharLower (c : Char) : Char :=
  if 'A' ≤ c && c ≤ 'Z' then Char.ofNat (c.toNat + 32) else c

/-- Python `s.lower()` (ASCII fragment, see `pyCharLower`). -/
def pyLower (s : String) : String :=
  String.mk (s.data.map pyCharLower)

/-- Python `s.rstrip("/")`. -/
def rstripSlashes (s : String) : String :=
  String.mk ((s.data.reverse.dropWhile (fun c => c = '/')).reverse)

/-- `(base_url or DEFAULT_BASE_URL).rstrip("/")`: Python `or` takes the
default when `base_url` is `None` or the empty (falsy) string. -/
def resolveBaseUrl (base_url : Option String) : String :=
  rstripSlashes
    (match base_url with
     | none => DEFAULT_BASE_URL
     | some b => if b = "" then DEFAULT_BASE_URL else b)

/-- The message of the `ValueError` raised by `Paymodel.__init__`. -/
def invalidPayerMsg : String :=
  "payer must be a valid Ethereum address (0x + 40 hex chars)"

/-- `Paymodel.__init__(self, payer, base_url=None)`:
`if not payer or not payer.startswith("0x") or len(payer) != 42: raise
ValueError(...)`, then `self._payer = payer.lower()` and
`self._base_url = (base_url or DEFAULT_BASE_URL).rstrip("/")`. -/
def paymodelInit (payer : String) (base_url : Option String) : Except String PaymodelClient :=
  if payer.data = [] ∨ pyStartsWith payer "0x" = false ∨ payer.data.length ≠ 42 then
    .error invalidPayerMsg
  else
    .ok { payer := pyLower payer, base_url := resolveBaseUrl base_url }

/-- The headers `Paymodel._get` sends: `{"X-Payer": self._payer}`. -/
def getRequestHeaders (c : PaymodelClient) : List (String × String) :=
  [("X-Payer", c.payer)]

/-- The spec's identity pattern, stated from the spec's own words for
comparison with `paymodelInit`: `0x` followed by exactly 40 hexadecimal
characters (42 characters in all). -/
def specEthAddr (s : String) : Bool :=
  pyStartsWith s "0x" && (s.data.length == 42) && (s.data.drop 2).all isHexDigitCh

/-- The characters Python `str.strip()` removes (ASCII whitespace; the wire
format in scope is ASCII). -/
def isPyWs (c : Char) : Bool :=
  c = ' ' || c = '\t' || c = '\n' || c = '\r' || c = '\x0b' || c = '\x0c'

/-- Python `line.strip()`. -/
def pyStrip (cs : List Char) : List Char :=
  ((cs.dropWhile isPyWs).reverse.dropWhile isPyWs).reverse

/-- The event marker `"data: "` checked by `event_line.startswith("data: ")`
and stripped by `event_line[6:]`. -/
def dataTag : List Char := "data: ".data

/-- The termination marker `"[DONE]"`. -/
def sentinel : List Char := "[DONE]".data

/-- Outcome of draining the buffer of `ChatCompletions._stream`:
`more` = the `while "\n" in buffer` loop ran dry and the generator waits for
the next read with `buffer` left over; `done` = the `[DONE]` `return` was
taken; `failed` = an exception escaped `ChatCompletionChunk(chunk_data)`
(only `json.JSONDecodeError` is caught).  In every case `chunks` are the
chunks yielded before stopping. -/
inductive DrainResult where
  | more (chunks : List ChatCompletionChunk) (buffer : List Char) : DrainResult
  | done (chunks : List ChatCompletionChunk) : DrainResult
  | failed (chunks : List ChatCompletionChunk) (e : PyExc) : DrainResult

/-- Prepend one yielded chunk to a drain outcome. -/
def DrainResult.consChunk (ch : ChatCompletionChunk) : DrainResult → DrainResult
  | .more cs b => .more (ch :: cs) b
  | .done cs => .done (ch :: cs)
  | .failed cs e => .failed (ch :: cs) e

/-- The body of the `while` loop of `ChatCompletions._stream` for one
extracted line, with `k` the outcome of the rest of the loop:
strip, ignore lines without the `data: ` tag, `return` on `[DONE]` before any
JSON parsing, skip on `json.JSONDecodeError`, otherwise yield the shaped
chunk.  The decoder is parametric in the model `parse` of `json.loads` so
that its non-dependence on the parser's value at `[DONE]` is expressible. -/
def stepLine (parse : List Char → Option Json) (lineRaw : List Char) (k : DrainResult) : DrainResult :=
  if (pyStrip lineRaw).take 6 = dataTag then
    if (pyStrip lineRaw).drop 6 = sentinel then .done []
    else
      match parse ((pyStrip lineRaw).drop 6) with
      | none => k
      | some j =>
        match ChatCompletionChunk.ofJson j with
        | .error e => .failed [] e
        | .ok ch => k.consChunk ch
  else k

/-- Split a buffer into its newline-terminated lines and the trailing
leftover with no newline yet, exactly as repeated `buffer.split("\n", 1)`
does. -/
def splitLines : List Char → List (List Char) × List Char
  | [] => ([], [])
  | c :: rest =>
    let p := splitLines rest
    if c = '\n' then ([] :: p.1, p.2)
    else
      match p.1 with
      | [] => ([], c :: p.2)
      | l :: ls => ((c :: l) :: ls, p.2)

/-- The `while "\n" in buffer` loop of `ChatCompletions._stream`: process
every complete line of the buffer in order; the unterminated remainder stays
buffered. -/
def drainBufferP (parse : List Char → Option Json) (buffer : List Char) : DrainResult :=
  (splitLines buffer).1.foldr (stepLine parse) (.more [] (splitLines buffer).2)

/-- `drainBufferP` with the real model of `json.loads`. -/
def drainBuffer : List Char → DrainResult :=
  drainBufferP jsonParse

/-- The `for raw_line in resp` loop of `ChatCompletions._stream`: each raw
read is appended to the buffer and the buffer drained; a `done` or `failed`
drain stops the generator, discarding all subsequent reads.  Returns the
yielded chunks and the exception that escaped, if any. -/
def decodeAuxP (parse : List Char → Option Json) :
    List (List Char) → List Char → List ChatCompletionChunk × Option PyExc
  | [], _ => ([], none)
  | r :: rs, buf =>
    match drainBufferP parse (buf ++ r) with
    | .done cs => (cs, none)
    | .failed cs e => (cs, some e)
    | .more cs buf' =>
      let p := decodeAuxP parse rs buf'
      (cs ++ p.1, p.2)

/-- `ChatCompletions._stream` as a function of the decoded raw reads, with
`json.loads` modelled by `jsonParse` and the initial `buffer = ""`. -/
def decodeStream (reads : List String) : List ChatCompletionChunk × Option PyExc :=
  decodeAuxP jsonParse (reads.map String.data) []

/-! ## Helper lemmas about the stream decoder -/

theorem splitLines_append_newline (line rest : List Char) (h : '\n' ∉ line) :
    splitLines (line ++ '\n' :: rest) = (line :: (splitLines rest).1, (splitLines rest).2) := by
  induction line with
  | nil => simp [splitLines]
  | cons c cs ih =>
    have hc : c ≠ '\n' := fun hc => h (by simp [hc])
    have hcs : '\n' ∉ cs := fun hm => h (List.mem_cons_of_mem _ hm)
    simp [splitLines, ih hcs, hc]

/-- Draining a buffer whose first complete line is `line` processes that line
and continues with the rest of the buffer. -/
theorem drain_cons (parse : List Char → Option Json) (line rest : List Char) (h : '\n' ∉ line) :
    drainBufferP parse (line ++ '\n' :: rest) = stepLine parse line (drainBufferP parse rest) := by
  simp [drainBufferP, splitLines_append_newline line rest h]

theorem stepLine_congr (p₁ p₂ : List Char → Option Json)
    (hp : ∀ s, s ≠ sentinel → p₁ s = p₂ s) (lineRaw : List Char) (k : DrainResult) :
    stepLine p₁ lineRaw k = stepLine p₂ lineRaw k := by
  unfold stepLine
  by_cases h6 : (pyStrip lineRaw).take 6 = dataTag
  · by_cases hd : (pyStrip lineRaw).drop 6 = sentinel
    · simp [h6, hd]
    · rw [hp _ hd]
  · simp [h6]

theorem foldr_stepLine_congr (p₁ p₂ : List Char → Option Json)
    (hp : ∀ s, s ≠ sentinel → p₁ s = p₂ s) (ls : List (List Char)) (base : DrainResult) :
    ls.foldr (stepLine p₁) base = ls.foldr (stepLine p₂) base := by
  induction ls with
  | nil => rfl
  | cons l ls ih => simp [ih, stepLine_congr p₁ p₂ hp]

theorem drainBufferP_congr (p₁ p₂ : List Char → Option Json)
    (hp : ∀ s, s ≠ sentinel → p₁ s = p₂ s) (b : List Char) :
    drainBufferP p₁ b = drainBufferP p₂ b := by
  simp [drainBufferP, foldr_stepLine_congr p₁ p₂ hp]

theorem decodeAuxP_congr (p₁ p₂ : List Char → Option Json)
    (hp : ∀ s, s ≠ sentinel → p₁ s = p₂ s) :
    ∀ (reads : List (List Char)) (buf : List Char),
      decodeAuxP p₁ reads buf = decodeAuxP p₂ reads buf := by
  intro reads
  induction reads with
  | nil => intro buf; rfl
  | cons r rs ih =>
    intro buf
    simp only [decodeAuxP, drainBufferP_congr p₁ p₂ hp (buf ++ r)]
    cases drainBufferP p₂ (buf ++ r) with
    | more cs b => simp [ih b]
    | done cs => rfl
    | failed cs e => rfl

theorem take6_dataTag (p : List Char) : (dataTag ++ p).take 6 = dataTag := by
  have h : dataTag.length = 6 := rfl
  rw [← h, List.take_left]

theorem drop6_dataTag (p : List Char) : (dataTag ++ p).drop 6 = p := by
  have h : dataTag.length = 6 := rfl
  rw [← h, List.drop_left]

/-! ## Claims about the stream decoder -/

/-- Claim C5: once the decoder extracts a line whose stripped form is
`data: ` followed by exactly the sentinel `[DONE]`, the chunk sequence
terminates.  First conjunct: such a line makes the drain return at once with
no chunk, whatever else remains in the buffer.  Second conjunct: a drain
that returned makes the generator ignore every subsequent read.  Third
conjunct: the decoded output never depends on the JSON parser's value at the
sentinel payload, i.e. `[DONE]` is never passed to the JSON parser. -/
theorem stream_sentinel_stops :
    (∀ (parse : List Char → Option Json) (line rest : List Char), '\n' ∉ line →
       pyStrip line = dataTag ++ sentinel →
       drainBufferP parse (line ++ '\n' :: rest) = DrainResult.done [])
    ∧ (∀ (parse : List Char → Option Json) (buf r : List Char)
         (reads : List (List Char)) (cs : List ChatCompletionChunk),
         drainBufferP parse (buf ++ r) = DrainResult.done cs →
         decodeAuxP parse (r :: reads) buf = (cs, none))
    ∧ (∀ p₁ p₂ : List Char → Option Json, (∀ s, s ≠ sentinel → p₁ s = p₂ s) →
         ∀ (reads : List (List Char)) (buf : List Char),
           decodeAuxP p₁ reads buf = decodeAuxP p₂ reads buf) := by
  refine ⟨?_, ?_, ?_⟩
  · intro parse line rest h1 h2
    rw [drain_cons parse line rest h1]
    have htake : (dataTag ++ sentinel).take 6 = dataTag := by decide
    have hdrop : (dataTag ++ sentinel).drop 6 = sentinel := by decide
    simp [stepLine, h2, htake, hdrop]
  · intro parse buf r reads cs h
    simp [decodeAuxP, h]
  · exact decodeAuxP_congr

/-- Witness for C5 at a concrete input: a `data: [DONE]` line followed by
more buffered input drains to an immediate return with no chunks. -/
theorem stream_sentinel_stops_witness :
    drainBufferP jsonParse
        (String.data "data: [DONE]" ++ '\n' :: String.data "data: \x7b\"id\":\"y\"\x7d") =
      DrainResult.done [] :=
  stream_sentinel_stops.1 jsonParse (String.data "data: [DONE]")
    (String.data "data: \x7b\"id\":\"y\"\x7d") (by decide) (by decide)

/-- Claim C6: the concrete three-line stream (`he` delta, `llo` delta,
`[DONE]`) decodes to exactly two chunks whose single choice's delta contents
are `"he"` and `"llo"`, and then terminates with no further output and no
escaping exception. -/
theorem stream_concrete_two_chunks :
    decodeStream
        ["data: \x7b\"id\":\"x\",\"choices\":[\x7b\"index\":0,\"delta\":\x7b\"content\":\"he\"\x7d\x7d]\x7d\n",
         "data: \x7b\"id\":\"x\",\"choices\":[\x7b\"index\":0,\"delta\":\x7b\"content\":\"llo\"\x7d\x7d]\x7d\n",
         "data: [DONE]\n"] =
      ([{ id := Json.str "x", object := "chat.completion.chunk", model := Json.str "",
          choices := [{ index := Json.num 0,
                        delta := { role := Json.null, content := Json.str "he" },
                        finish_reason := Json.null }] },
        { id := Json.str "x", object := "chat.completion.chunk", model := Json.str "",
          choices := [{ index := Json.num 0,
                        delta := { role := Json.null, content := Json.str "llo" },
                        finish_reason := Json.null }] }], none) := by
  rfl

/-- Claim C7: a stripped `data: ` line whose payload is not valid JSON is
skipped silently: the drain neither yields a chunk for it nor raises, and
the rest of the stream is decoded exactly as if the line were absent (so
subsequent well-formed lines still produce their chunks). -/
theorem stream_skips_invalid_json (payload rest : List Char)
    (h1 : jsonParse payload = none)
    (h2 : pyStrip (dataTag ++ payload) = dataTag ++ payload)
    (h3 : payload ≠ sentinel)
    (h4 : '\n' ∉ payload) :
    drainBuffer ((dataTag ++ payload) ++ '\n' :: rest) = drainBuffer rest := by
  have hnl : '\n' ∉ dataTag ++ payload := by
    intro hm
    rcases List.mem_append.mp hm with h | h
    · revert h; decide
    · exact h4 h
  rw [drainBuffer, drain_cons jsonParse _ rest hnl]
  simp [stepLine, h2, take6_dataTag, drop6_dataTag, h1, h3, drainBuffer]

/-- Witness for C7 at the spec's concrete input `data: not-json` followed by
a well-formed line. -/
theorem stream_skips_invalid_json_witness :
    drainBuffer ((dataTag ++ String.data "not-json") ++ '\n' ::
        String.data "data: \x7b\"id\":\"y\"\x7d\n") =
      drainBuffer (String.data "data: \x7b\"id\":\"y\"\x7d\n") :=
  stream_skips_invalid_json (String.data "not-json") (String.data "data: \x7b\"id\":\"y\"\x7d\n")
    (by rfl) (by decide) (by decide) (by decide)

/-! ## Claims about client construction -/

/-- Claim C1 counterexample: `0x` followed by 40 `z` characters does not
match the spec's identity pattern (the characters are not hexadecimal), yet
`Paymodel.__init__` accepts it: the constructor checks only the `0x` tag and
the total length, never that the 40 characters are hex. -/
theorem nonhex_payer_accepted :
    specEthAddr "0xzzzzzzzzzzzzzzzzzzzzzzzzzzzzzzzzzzzzzzzz" = false
    ∧ paymodelInit "0xzzzzzzzzzzzzzzzzzzzzzzzzzzzzzzzzzzzzzzzz" none =
        Except.ok { payer := "0xzzzzzzzzzzzzzzzzzzzzzzzzzzzzzzzzzzzzzzzz",
                    base_url := DEFAULT_BASE_URL } := by
  exact ⟨by decide, by rfl⟩

/-- Claim C1 amended: construction raises the `ValueError` exactly for the
strings that are empty, lack the `0x` tag, or have length other than 42
(the wrong-length and missing-tag cases of the claim); a 42-character
string with the `0x` tag is accepted even when its remaining characters are
not hexadecimal. -/
theorem init_validates_shape_only (s : String) (bu : Option String) :
    paymodelInit s bu = Except.error invalidPayerMsg ↔
      ¬ (pyStartsWith s "0x" = true ∧ s.data.length = 42) := by
  by_cases hc : s.data = [] ∨ pyStartsWith s "0x" = false ∨ s.data.length ≠ 42
  · simp only [paymodelInit, if_pos hc, true_iff]
    rintro ⟨hpre, hlen⟩
    rcases hc with h | h | h
    · rw [h] at hlen; simp at hlen
    · rw [hpre] at h; simp at h
    · exact h hlen
  · push_neg at hc
    obtain ⟨hne, hpre, hlen⟩ := hc
    have hc' : ¬ (s.data = [] ∨ pyStartsWith s "0x" = false ∨ s.data.length ≠ 42) := by
      push_neg
      exact ⟨hne, hpre, hlen⟩
    simp only [paymodelInit, if_neg hc']
    constructor
    · intro h; simp at h
    · intro h
      exact absurd ⟨eq_true_of_ne_false hpre, hlen⟩ h

/-- Claim C3: for every string matching the identity pattern (`0x` plus 40
hex characters, any letter case), construction succeeds, the stored
`_payer` is the lowercase form of the string, and the `X-Payer` header of a
GET request carries that lowercase form. -/
theorem valid_payer_normalized (s : String) (bu : Option String) (h : specEthAddr s = true) :
    paymodelInit s bu = Except.ok { payer := pyLower s, base_url := resolveBaseUrl bu }
    ∧ getRequestHeaders { payer := pyLower s, base_url := resolveBaseUrl bu } =
        [("X-Payer", pyLower s)] := by
  simp only [specEthAddr, Bool.and_eq_true, beq_iff_eq] at h
  obtain ⟨⟨hpre, hlen⟩, _hhex⟩ := h
  have hne : s.data ≠ [] := by intro he; rw [he] at hlen; simp at hlen
  refine ⟨?_, rfl⟩
  rw [paymodelInit, if_neg]
  push_neg
  exact ⟨hne, by simp [hpre], by omega⟩

/-- Witness for C3: a mixed-case valid identity is accepted and normalized
to its lowercase form. -/
theorem valid_payer_normalized_witness :
    specEthAddr "0xAbCdEf0123456789aBcDeF0123456789abcdef01" = true
    ∧ pyLower "0xAbCdEf0123456789aBcDeF0123456789abcdef01" =
        "0xabcdef0123456789abcdef0123456789abcdef01"
    ∧ (paymodelInit "0xAbCdEf0123456789aBcDeF0123456789abcdef01" none =
        Except.ok { payer := pyLower "0xAbCdEf0123456789aBcDeF0123456789abcdef01",
                    base_url := resolveBaseUrl none }
       ∧ getRequestHeaders
            { payer := pyLower "0xAbCdEf0123456789aBcDeF0123456789abcdef01",
              base_url := resolveBaseUrl none } =
          [("X-Payer", pyLower "0xAbCdEf0123456789aBcDeF0123456789abcdef01")]) :=
  ⟨by decide, by rfl, valid_payer_normalized "0xAbCdEf0123456789aBcDeF0123456789abcdef01" none (by decide)⟩

/-! ## Claims about HTTP error mapping -/

/-- Claim C2 counterexample: a non-2xx response with an empty body makes
`json.loads(e.read())` raise `json.JSONDecodeError`, which propagates
uncaught — no `PaymodelError` with code `"UNKNOWN"` and data `None` is
raised. -/
theorem empty_error_body_escapes :
    raiseForError "" "HTTP Error 500: Internal Server Error" = HttpFailure.jsonDecodeError := by
  rfl

/-- Claim C2 amended: when the non-2xx body parses as a JSON object without
a `code` field, the raised `PaymodelError` has code `"UNKNOWN"`, message the
body's `error` field (falling back to `str(e)`), and data the full parsed
body (never `None`); when the body is empty or unparsable, the JSON decode
error propagates instead and no `PaymodelError` is raised. -/
theorem error_code_defaults_unknown (body fallback : String) (kvs : List (String × Json))
    (hp : jsonParse body.data = some (Json.obj kvs))
    (hc : lookupLast kvs "code" = none) :
    raiseForError body fallback =
      HttpFailure.paymodelError (Json.str "UNKNOWN")
        (dictGet kvs "error" (Json.str fallback)) (Json.obj kvs) := by
  simp [raiseForError, hp, dictGet, hc]

/-- Witness for the amended C2: the body `{}` yields code `"UNKNOWN"` with
the parsed (empty) body as data. -/
theorem error_code_defaults_unknown_witness :
    raiseForError "\x7b\x7d" "HTTP Error 500: Internal Server Error" =
      HttpFailure.paymodelError (Json.str "UNKNOWN")
        (dictGet [] "error" (Json.str "HTTP Error 500: Internal Server Error")) (Json.obj []) :=
  error_code_defaults_unknown "\x7b\x7d" "HTTP Error 500: Internal Server Error" [] (by rfl) (by rfl)

/-- Claim C4: a non-2xx body that parses as a JSON object with `code` and
`error` fields raises a `PaymodelError` whose code is the body's `code`,
whose message is the body's `error`, and whose data is the full parsed
body. -/
theorem error_body_fields (body fallback : String) (kvs : List (String × Json)) (c m : Json)
    (hp : jsonParse body.data = some (Json.obj kvs))
    (hc : lookupLast kvs "code" = some c)
    (he : lookupLast kvs "error" = some m) :
    raiseForError body fallback = HttpFailure.paymodelError c m (Json.obj kvs) := by
  simp [raiseForError, hp, dictGet, hc, he]

/-- Witness for C4 at the spec's concrete body: code `INSUFFICIENT_FUNDS`,
message `balance too low`, data the full parsed body. -/
theorem error_body_fields_witness :
    raiseForError "\x7b\"code\":\"INSUFFICIENT_FUNDS\",\"error\":\"balance too low\"\x7d"
        "HTTP Error 402: Payment Required" =
      HttpFailure.paymodelError (Json.str "INSUFFICIENT_FUNDS") (Json.str "balance too low")
        (Json.obj [("code", Json.str "INSUFFICIENT_FUNDS"), ("error", Json.str "balance too low")]) :=
  error_body_fields "\x7b\"code\":\"INSUFFICIENT_FUNDS\",\"error\":\"balance too low\"\x7d"
    "HTTP Error 402: Payment Required"
    [("code", Json.str "INSUFFICIENT_FUNDS"), ("error", Json.str "balance too low")]
    (Json.str "INSUFFICIENT_FUNDS") (Json.str "balance too low") (by rfl) (by rfl) (by rfl)

/-! ## Helper lemmas for destructuring the shaping code -/

theorem bind_eq_ok {α β : Type} {x : Except PyExc α} {f : α → Except PyExc β} {b : β} :
    (x >>= f) = Except.ok b ↔ ∃ a, x = Except.ok a ∧ f a = Except.ok b := by
  cases x <;> simp [Bind.bind, Except.bind]

theorem pure_eq_ok {α : Type} {a b : α} :
    (pure a : Except PyExc α) = Except.ok b ↔ a = b := by
  simp [pure, Except.pure]

/-- Successful element-wise shaping: the output list has one entry per
input entry, produced by the shaping function at the element's enumeration
index. -/
theorem mapIdxExcept_get {α : Type} (f : Nat → Json → Except PyExc α) :
    ∀ (cs : List Json) (k : Nat) (xs : List α), mapIdxExcept f k cs = Except.ok xs →
      ∀ (j : Nat) (c : Json), cs.get? j = some c →
        ∃ x, xs.get? j = some x ∧ f (k + j) c = Except.ok x := by
  intro cs
  induction cs with
  | nil => intro k xs _ j c hc; simp at hc
  | cons c0 cs ih =>
    intro k xs h j c hc
    simp only [mapIdxExcept, bind_eq_ok, pure_eq_ok] at h
    obtain ⟨x0, hx0, xs', hxs', hval⟩ := h
    injection hval with hval
    subst hval
    cases j with
    | zero =>
      simp only [List.get?] at hc
      injection hc with hc
      subst hc
      exact ⟨x0, rfl, hx0⟩
    | succ j' =>
      simp only [List.get?] at hc
      obtain ⟨x, hx, hfx⟩ := ih (k + 1) xs' hxs' j' c hc
      refine ⟨x, hx, ?_⟩
      have : k + (j' + 1) = k + 1 + j' := by omega
      rw [this]
      exact hfx

/-- The `index` attribute of a successfully shaped `Choice` is the
element's `index` field when present, else the enumeration index. -/
theorem mkChoice_ok_index (i : Nat) (ckvs : List (String × Json)) (x : Choice)
    (h : mkChoice i (Json.obj ckvs) = Except.ok x) :
    x.index = (lookupLast ckvs "index").getD (Json.num (Int.ofNat i)) := by
  simp only [mkChoice, pyGet, bind_eq_ok, pure_eq_ok] at h
  obtain ⟨idx, hidx, msgrest⟩ := h
  injection hidx with hidx
  subst hidx
  obtain ⟨msgJ, hmsgJ, role, _hrole, content, _hcontent, fr, hfr, hval⟩ := msgrest
  subst hval
  simp [dictGet]

/-- The `index` attribute of a successfully shaped `StreamChoice` is the
element's `index` field when present, else the enumeration index. -/
theorem mkStreamChoice_ok_index (i : Nat) (ckvs : List (String × Json)) (x : StreamChoice)
    (h : mkStreamChoice i (Json.obj ckvs) = Except.ok x) :
    x.index = (lookupLast ckvs "index").getD (Json.num (Int.ofNat i)) := by
  simp only [mkStreamChoice, pyGet, bind_eq_ok, pure_eq_ok] at h
  obtain ⟨idx, hidx, deltarest⟩ := h
  injection hidx with hidx
  subst hidx
  obtain ⟨deltaJ, hdeltaJ, role, _hrole, content, _hcontent, fr, hfr, hval⟩ := deltarest
  subst hval
  simp [dictGet]

/-! ## Claims about response shaping -/

/-- Claim C8: in a shaped `ChatCompletion`, a response object without a
`usage` field gets all three usage counters equal to 0, and each of the
three counters individually absent from a present `usage` object defaults
to 0. -/
theorem usage_defaults (kvs : List (String × Json)) (r : ChatCompletion)
    (h : ChatCompletion.ofJson (Json.obj kvs) = Except.ok r) :
    (lookupLast kvs "usage" = none →
       r.usage = ⟨Json.num 0, Json.num 0, Json.num 0⟩)
    ∧ (∀ u, lookupLast kvs "usage" = some (Json.obj u) →
        (lookupLast u "prompt_tokens" = none → r.usage.prompt_tokens = Json.num 0)
        ∧ (lookupLast u "completion_tokens" = none → r.usage.completion_tokens = Json.num 0)
        ∧ (lookupLast u "total_tokens" = none → r.usage.total_tokens = Json.num 0)) := by
  simp only [ChatCompletion.ofJson, pyGet, bind_eq_ok, pure_eq_ok] at h
  obtain ⟨id0, hid, obj0, hobj, model0, hmodel, choicesJ, hchoices, elems, helems,
    choices0, hchoices0, usageJ, husageJ, pt, hpt, ct, hct, tt, htt, hval⟩ := h
  subst hval
  injection husageJ with husageJ
  constructor
  · intro hu
    have hUJ : usageJ = Json.obj [] := by rw [← husageJ]; simp [dictGet, hu]
    subst hUJ
    injection hpt with hpt
    injection hct with hct
    injection htt with htt
    simp [← hpt, ← hct, ← htt, dictGet, lookupLast]
  · intro u hu
    have hUJ : usageJ = Json.obj u := by rw [← husageJ]; simp [dictGet, hu]
    subst hUJ
    injection hpt with hpt
    injection hct with hct
    injection htt with htt
    refine ⟨fun hn => ?_, fun hn => ?_, fun hn => ?_⟩
    · simp [← hpt, dictGet, hn]
    · simp [← hct, dictGet, hn]
    · simp [← htt, dictGet, hn]

/-- Witness for C8: shaping an empty response object succeeds and yields
all-zero usage counters. -/
theorem usage_defaults_witness :
    ChatCompletion.ofJson (Json.obj []) =
      Except.ok { raw := Json.obj [], id := Json.str "", object := Json.str "chat.completion",
                  model := Json.str "", choices := [],
                  usage := { prompt_tokens := Json.num 0, completion_tokens := Json.num 0,
                             total_tokens := Json.num 0 },
                  cost := none, balance := none }
    ∧ ({ raw := Json.obj [], id := Json.str "", object := Json.str "chat.completion",
         model := Json.str "", choices := [],
         usage := { prompt_tokens := Json.num 0, completion_tokens := Json.num 0,
                    total_tokens := Json.num 0 },
         cost := none, balance := none } : ChatCompletion).usage =
        ⟨Json.num 0, Json.num 0, Json.num 0⟩ :=
  ⟨rfl, (usage_defaults [] _ rfl).1 rfl⟩

/-- Claim C9: shaping is deterministic — shaping the same parsed JSON value
twice produces field-by-field equal `ChatCompletion`s (and field-by-field
equal `ChatCompletionChunk`s). -/
theorem shaping_deterministic :
    (∀ (d : Json) (r₁ r₂ : ChatCompletion),
       ChatCompletion.ofJson d = Except.ok r₁ → ChatCompletion.ofJson d = Except.ok r₂ →
       r₁.id = r₂.id ∧ r₁.object = r₂.object ∧ r₁.model = r₂.model
         ∧ r₁.choices = r₂.choices ∧ r₁.usage = r₂.usage)
    ∧ (∀ (d : Json) (c₁ c₂ : ChatCompletionChunk),
       ChatCompletionChunk.ofJson d = Except.ok c₁ → ChatCompletionChunk.ofJson d = Except.ok c₂ →
       c₁.id = c₂.id ∧ c₁.object = c₂.object ∧ c₁.model = c₂.model ∧ c₁.choices = c₂.choices) := by
  constructor
  · intro d r₁ r₂ h₁ h₂
    rw [h₁] at h₂
    injection h₂ with h₂
    subst h₂
    exact ⟨rfl, rfl, rfl, rfl, rfl⟩
  · intro d c₁ c₂ h₁ h₂
    rw [h₁] at h₂
    injection h₂ with h₂
    subst h₂
    exact ⟨rfl, rfl, rfl, rfl⟩

/-- Witness for C9 at a concrete response object. -/
theorem shaping_deterministic_witness :
    (ChatCompletion.ofJson (Json.obj []) =
        Except.ok { raw := Json.obj [], id := Json.str "", object := Json.str "chat.completion",
                    model := Json.str "", choices := [],
                    usage := { prompt_tokens := Json.num 0, completion_tokens := Json.num 0,
                               total_tokens := Json.num 0 },
                    cost := none, balance := none })
    ∧ ({ raw := Json.obj [], id := Json.str "", object := Json.str "chat.completion",
         model := Json.str "", choices := [],
         usage := { prompt_tokens := Json.num 0, completion_tokens := Json.num 0,
                    total_tokens := Json.num 0 },
         cost := none, balance := none } : ChatCompletion).usage =
        ({ raw := Json.obj [], id := Json.str "", object := Json.str "chat.completion",
           model := Json.str "", choices := [],
           usage := { prompt_tokens := Json.num 0, completion_tokens := Json.num 0,
                      total_tokens := Json.num 0 },
           cost := none, balance := none } : ChatCompletion).usage :=
  ⟨rfl, (shaping_deterministic.1 (Json.obj []) _ _ rfl rfl).2.2.2.2⟩

/-- Claim C10: in both shaped forms, a choices element lacking an `index`
field gets the element's zero-based position as its index, and an explicit
`index` field is used unchanged (`get` with the enumeration index as
default). -/
theorem choice_index_positional_default :
    (∀ (kvs : List (String × Json)) (cs : List Json) (j : Nat) (ckvs : List (String × Json))
       (r : ChatCompletion),
       ChatCompletion.ofJson (Json.obj kvs) = Except.ok r →
       dictGet kvs "choices" (Json.arr []) = Json.arr cs →
       cs.get? j = some (Json.obj ckvs) →
       (r.choices.get? j).map Choice.index =
         some ((lookupLast ckvs "index").getD (Json.num (Int.ofNat j))))
    ∧ (∀ (kvs : List (String × Json)) (cs : List Json) (j : Nat) (ckvs : List (String × Json))
       (ch : ChatCompletionChunk),
       ChatCompletionChunk.ofJson (Json.obj kvs) = Except.ok ch →
       dictGet kvs "choices" (Json.arr []) = Json.arr cs →
       cs.get? j = some (Json.obj ckvs) →
       (ch.choices.get? j).map StreamChoice.index =
         some ((lookupLast ckvs "index").getD (Json.num (Int.ofNat j)))) := by
  constructor
  · intro kvs cs j ckvs r h hcj hget
    simp only [ChatCompletion.ofJson, pyGet, bind_eq_ok, pure_eq_ok] at h
    obtain ⟨id0, hid, obj0, hobj, model0, hmodel, choicesJ, hchoices, elems, helems,
      choices0, hchoices0, usageJ, husageJ, pt, hpt, ct, hct, tt, htt, hval⟩ := h
    subst hval
    injection hchoices with hchoices
    rw [← hchoices, hcj] at helems
    simp only [pyIterate, Except.ok.injEq] at helems
    subst helems
    obtain ⟨x, hx, hfx⟩ := mapIdxExcept_get mkChoice cs 0 choices0 hchoices0 j (Json.obj ckvs) hget
    have hidx := mkChoice_ok_index (0 + j) ckvs x hfx
    simp only [hx, Option.map_some']
    rw [hidx]
    simp
  · intro kvs cs j ckvs ch h hcj hget
    simp only [ChatCompletionChunk.ofJson, pyGet, bind_eq_ok, pure_eq_ok] at h
    obtain ⟨id0, hid, model0, hmodel, choicesJ, hchoices, elems, helems, choices0, hchoices0, hval⟩ := h
    subst hval
    injection hchoices with hchoices
    rw [← hchoices, hcj] at helems
    simp only [pyIterate, Except.ok.injEq] at helems
    subst helems
    obtain ⟨x, hx, hfx⟩ := mapIdxExcept_get mkStreamChoice cs 0 choices0 hchoices0 j (Json.obj ckvs) hget
    have hidx := mkStreamChoice_ok_index (0 + j) ckvs x hfx
    simp only [hx, Option.map_some']
    rw [hidx]
    simp

/-- Witness for C10: a response whose single choices element has no `index`
field gets index 0; one with an explicit `index` 7 keeps it. -/
theorem choice_index_positional_default_witness :
    ((([{ index := Json.num 0,
          message := { role := Json.str "assistant", content := Json.str "" },
          finish_reason := Json.null }] : List Choice).get? 0).map Choice.index =
        some ((lookupLast [] "index").getD (Json.num (Int.ofNat 0))))
    ∧ ((([{ index := Json.num 7, delta := { role := Json.null, content := Json.null },
            finish_reason := Json.null }] : List StreamChoice).get? 0).map StreamChoice.index =
        some ((lookupLast [("index", Json.num 7)] "index").getD (Json.num (Int.ofNat 0)))) :=
  ⟨choice_index_positional_default.1 [("choices", Json.arr [Json.obj []])] [Json.obj []] 0 [] _
      rfl rfl rfl,
   choice_index_positional_default.2 [("choices", Json.arr [Json.obj [("index", Json.num 7)]])]
      [Json.obj [("index", Json.num 7)]] 0 [("index", Json.num 7)] _ rfl rfl rfl⟩

end PaymodelSDK
